import Mathlib

/-!
Verification of the signal_analyst interpretive core
(`core/inference.py`, `core/change_detector.py`, `agent/cohort.py`)
against its natural-language specification.

Shallow embedding conventions:
* A Python surface dict is embedded as a structure whose fields are exactly
  the keys the core reads (`dict.get` on a missing key, a key mapped to
  `None`, and a key mapped to an empty collection are all represented by the
  field's default value `none` / `[]`; nothing else about the dict is ever
  consulted by the code).  The empty dict `{}` is the structure with all
  fields at their defaults.
* Python truthiness of an optional string (`if error:`) is the predicate
  `pytruthy`: a present, non-empty string.
* Python `datetime` values are embedded as rational epoch seconds; the only
  operation the core performs on them is subtraction and division by 86400.
* Python floats in the stability score are embedded as exact rationals
  (`0.2 = 1/5`, `0.05 = 1/20`), the arithmetic the spec describes.
-/

namespace SignalAnalyst

/-- Python truthiness of an optional string value: present and non-empty. -/
def pytruthy : Option String → Bool
  | some s => s != ""
  | none => false

/-- Python `a or b` on two optional strings, collapsing to a plain string
with `""` as the final fallback (as in `(x or y or "")`). -/
def pyor2 (a b : Option String) : String :=
  if pytruthy a then a.getD "" else if pytruthy b then b.getD "" else ""

/-- Python `a or b` where `a` is a string and `b` the fallback string. -/
def pyorS (a b : String) : String :=
  if a != "" then a else b

/-- Python substring test `needle in hay` on lists of characters. -/
def listInfixOf (n : List Char) : List Char → Bool
  | [] => n.isEmpty
  | c :: rest => n.isPrefixOf (c :: rest) || listInfixOf n rest

/-- Python substring test `needle in hay` on strings. -/
def strIn (needle hay : String) : Bool :=
  listInfixOf needle.data hay.data

/-- Python `s.lower()` (ASCII case folding; all keywords involved are ASCII). -/
def strLower (s : String) : String :=
  ⟨s.data.map Char.toLower⟩

-- ---------------------------------------------------------------------------
-- Raw surface blocks (the `raw_profile` mapping consumed by the engine)
-- ---------------------------------------------------------------------------

/-- The nested `meta` mapping of a web block. -/
structure WebMeta where
  title : Option String := none
  description : Option String := none
  deriving Repr, DecidableEq

/-- Raw `web` surface dict (fields read by `_infer_web` and
`normalize_job_result`).  The scraper contract (`WebData`) carries
`raw_html` and `clean_text`; `agent/cohort.py` additionally reads a key
literally named `"text"`, so that key is modelled as its own field. -/
structure WebBlock where
  meta : Option WebMeta := none
  error : Option String := none
  raw_html : Option String := none
  text : Option String := none
  clean_text : Option String := none
  deriving Repr, DecidableEq

/-- Raw `seo` surface dict. -/
structure SeoBlock where
  error : Option String := none
  meta_issues : List String := []
  heading_issues : List String := []
  deriving Repr, DecidableEq

/-- Raw `tech_stack` surface dict. -/
structure TechBlock where
  confidence : Option String := none
  detected_framework : Option String := none
  detected_cms : Option String := none
  probable_framework : Option String := none
  probable_cms : Option String := none
  evidence : List String := []
  absence_interpretation : Option String := none
  limitations : List String := []
  frameworks : List String := []
  cms : Option String := none
  error : Option String := none
  deriving Repr, DecidableEq

/-- Raw `reviews` surface dict. -/
structure ReviewsBlock where
  error : Option String := none
  summary : Option String := none
  deriving Repr, DecidableEq

/-- Raw `social` surface dict. -/
structure SocialBlock where
  twitter : Option String := none
  linkedin : Option String := none
  instagram : Option String := none
  youtube : Option String := none
  tiktok : Option String := none
  error : Option String := none
  deriving Repr, DecidableEq

/-- Raw `hiring` surface dict. -/
structure HiringBlock where
  error : Option String := none
  open_roles : List String := []
  deriving Repr, DecidableEq

/-- Raw `ads` surface dict. -/
structure AdsBlock where
  error : Option String := none
  platforms : List String := []
  deriving Repr, DecidableEq

/-- Raw `company` dict (read only by `normalize_job_result` for the name). -/
structure CompanyBlock where
  name : Option String := none
  deriving Repr, DecidableEq

/-- The raw profile mapping.  A missing surface key (`raw_profile.get(k, {})`)
is represented by the all-default block, which is exactly how the code treats
it. -/
structure RawProfile where
  web : WebBlock := {}
  seo : SeoBlock := {}
  tech_stack : TechBlock := {}
  reviews : ReviewsBlock := {}
  social : SocialBlock := {}
  hiring : HiringBlock := {}
  ads : AdsBlock := {}
  company : CompanyBlock := {}
  deriving Repr, DecidableEq

-- ---------------------------------------------------------------------------
-- core/inference.py : data model
-- ---------------------------------------------------------------------------

/-- `SignalInference` (core/inference.py). -/
structure SignalInference where
  «section» : String
  data_status : String
  confidence : String
  plausible_causes : List String
  strategic_implication : String
  risk_note : Option String := none
  deriving Repr, DecidableEq

/-- `InferredProfile` (core/inference.py). -/
structure InferredProfile where
  web : SignalInference
  seo : SignalInference
  tech_stack : SignalInference
  reviews : SignalInference
  social : SignalInference
  hiring : SignalInference
  ads : SignalInference
  strategic_posture : String
  deriving Repr, DecidableEq

-- ---------------------------------------------------------------------------
-- core/inference.py : per-surface classifiers
-- ---------------------------------------------------------------------------

/-- `InferenceEngine._infer_web`. -/
def inferWeb (data : WebBlock) : SignalInference :=
  let title := (data.meta.getD {}).title
  let desc := (data.meta.getD {}).description
  let error := data.error
  if pytruthy error || (!pytruthy title && !pytruthy desc) then
    { «section» := "Web Presence"
      data_status := "absent"
      confidence := "medium"
      plausible_causes := ["WAF Blocking", "Single-Page App (SPA) unrendered", "Private / Intranet site"]
      strategic_implication :=
        "The organization maintains a shielded digital perimeter. " ++
        "This suggests a strategy that prioritizes security or privacy over " ++
        "broad public discoverability, common in specialized B2B or defense sectors."
      risk_note := some "Opacity prevents verification of public messaging alignment." }
  else
    { «section» := "Web Presence"
      data_status := "present"
      confidence := "high"
      plausible_causes := ["Standard public indexing"]
      strategic_implication :=
        "The organization actively manages its digital front door, positioning itself via '" ++
        pyorS (title.getD "") "Untitled" ++
        "'. This indicates a reliance on inbound web traffic as a credibility signal." }

/-- `InferenceEngine._infer_seo`. -/
def inferSeo (data : SeoBlock) : SignalInference :=
  let error := data.error
  let issues := data.meta_issues ++ data.heading_issues
  if pytruthy error then
    { «section» := "SEO Diagnostics"
      data_status := "error"
      confidence := "low"
      plausible_causes := ["Anti-bot defenses", "Malformed HTML structure"]
      strategic_implication :=
        "Technical barriers prevent standard SEO auditing. " ++
        "Strategically, this implies organic search is not a primary growth lever, " ++
        "or the brand relies on direct traffic and reputation." }
  else if issues.isEmpty then
    { «section» := "SEO Diagnostics"
      data_status := "present"
      confidence := "high"
      plausible_causes := ["Mature marketing ops", "Technical SEO investment"]
      strategic_implication :=
        "Zero structural SEO issues detected. This signals a disciplined, " ++
        "technically mature marketing operation that treats discoverability as a core asset." }
  else
    { «section» := "SEO Diagnostics"
      data_status := "partial"
      confidence := "high"
      plausible_causes := ["Legacy CMS", "Neglected maintenance", "Brand-focused vs Search-focused"]
      strategic_implication :=
        "Detected " ++ toString issues.length ++
        " structural gaps between the brand's intent and its technical reality. " ++
        "This friction suggests marketing execution lags behind strategy, potentially bleeding organic traffic."
      risk_note := some ("Primary issue: " ++ issues.headD "Unknown") }

/-- `InferenceEngine._infer_tech`.  Represents `data.get("confidence", "none")`
via `Option.getD`; an explicit `"confidence": null` entry (which no producer
in the repository emits) is not distinguished from a missing key. -/
def inferTech (data : TechBlock) : SignalInference :=
  let confidence0 := data.confidence.getD "none"
  let legacy_frameworks := data.frameworks
  let confidence :=
    if confidence0 == "none" && !legacy_frameworks.isEmpty then "high" else confidence0
  if confidence == "none" then
    let reason := pyorS (pyor2 data.absence_interpretation none)
      "No identifiable framework markers found in HTML."
    { «section» := "Tech Stack"
      data_status := "absent"
      confidence := "none"
      plausible_causes :=
        if !data.limitations.isEmpty then data.limitations
        else ["Heavily cached", "Static HTML", "Custom"]
      strategic_implication :=
        "The technology stack is indeterminate based on public signals. " ++ reason ++
        " Infrastructure complexity and maintenance burden cannot be assessed."
      risk_note := some "Opacity prevents assessing maintenance risks or infrastructure capability." }
  else if confidence == "low" || confidence == "medium" then
    let signals0 := [data.probable_framework, data.probable_cms].filterMap
      (fun o => if pytruthy o then o else none)
    let signals :=
      if signals0.isEmpty && !legacy_frameworks.isEmpty then legacy_frameworks.take 2
      else signals0
    let ev_str :=
      if !data.evidence.isEmpty then String.intercalate "; " (data.evidence.take 2)
      else "weak signals"
    { «section» := "Tech Stack"
      data_status := "partial"
      confidence := "low"
      plausible_causes := ["Non-standard implementation", "Obfuscated headers"]
      strategic_implication :=
        "Traces suggest a likely reliance on " ++
        pyorS (String.intercalate ", " signals) "unidentified text-based signals" ++
        ". Evidence is present (" ++ ev_str ++ ") but lacks canonical authority. " ++
        "This suggests a custom implementation or a headless architecture."
      risk_note := some "Tech identification is tentative; verify before making integration decisions." }
  else
    let stack0 := [data.detected_framework, data.detected_cms].filterMap
      (fun o => if pytruthy o then o else none)
    let stack :=
      if stack0.isEmpty && !legacy_frameworks.isEmpty then legacy_frameworks.take 2
      else stack0
    { «section» := "Tech Stack"
      data_status := "present"
      confidence := "high"
      plausible_causes := ["Modern SaaS composability", "Standard CMS deployment"]
      strategic_implication :=
        "Confirmed core infrastructure: " ++ String.intercalate ", " stack ++
        ". The organization relies on established, standard tooling, allowing for " ++
        "predictable talent sourcing and easier third-party integrations." }

/-- `InferenceEngine._infer_reviews`. -/
def inferReviews (data : ReviewsBlock) : SignalInference :=
  if pytruthy data.error || !pytruthy data.summary then
    { «section» := "Customer Voice"
      data_status := "absent"
      confidence := "medium"
      plausible_causes := ["B2B/Enterprise model", "NDAs", "Offline transaction loop"]
      strategic_implication :=
        "The absence of public reviews strongly suggests an enterprise Sales-Led Growth (SLG) motion. " ++
        "Trust is likely built through private relationships, RFPs, and references rather than public social proof."
      risk_note := some "Lack of public feedback loop creates a blind spot for market sentiment." }
  else
    { «section» := "Customer Voice"
      data_status := "present"
      confidence := "medium"
      plausible_causes := ["PLG motion", "Consumer-facing brand"]
      strategic_implication :=
        "Public sentiment is visible and active, indicating a Product-Led or Consumer-focused model. " ++
        "The brand's reputation is decentralized and vulnerable to viral variance." }

/-- `InferenceEngine._infer_social`: note that it consults five platform
keys, `tiktok` included. -/
def inferSocial (data : SocialBlock) : SignalInference :=
  let has_social :=
    [data.twitter, data.linkedin, data.instagram, data.youtube, data.tiktok].any pytruthy
  if !has_social || pytruthy data.error then
    { «section» := "Social Footprint"
      data_status := "absent"
      confidence := "high"
      plausible_causes := ["Low-profile strategy", "Enterprise focus", "Resource constraint"]
      strategic_implication :=
        "The minimal social footprint suggests a 'Quiet Professional' posture. " ++
        "The organization likely views social media as a liability or irrelevant channel, " ++
        "choosing to control its narrative through owned channels (website/PR) only." }
  else
    { «section» := "Social Footprint"
      data_status := "present"
      confidence := "high"
      plausible_causes := ["Brand-building investment", "Community engagement"]
      strategic_implication :=
        "Active social channels signal a desire to own the narrative in the public square. " ++
        "The organization invests in community engagement as a defensive moat." }

/-- `InferenceEngine._infer_hiring`. -/
def inferHiring (data : HiringBlock) : SignalInference :=
  if pytruthy data.error || data.open_roles.isEmpty then
    { «section» := "Hiring Signals"
      data_status := "absent"
      confidence := "medium"
      plausible_causes := ["Low turnover", "Hiring freeze", "Outsourced recruiting", "Stealth mode"]
      strategic_implication :=
        "No visible open roles suggests a stable, low-turnover environment or a hiring freeze. " ++
        "Growth is currently being absorbed by existing capacity or outsourced partners rather than " ++
        "new headcount." }
  else
    { «section» := "Hiring Signals"
      data_status := "present"
      confidence := "high"
      plausible_causes := ["Expansion mode", "High churn", "New capability build"]
      strategic_implication :=
        "Visible hiring (" ++ toString data.open_roles.length ++
        " roles) indicates an expansion phase. " ++
        "The organization is actively trading capital for human capacity to capture market share." }

/-- `InferenceEngine._infer_ads`. -/
def inferAds (data : AdsBlock) : SignalInference :=
  if pytruthy data.error || data.platforms.isEmpty then
    { «section» := "Paid Media"
      data_status := "absent"
      confidence := "medium"
      plausible_causes := ["Organic Growth", "Sales-Led Growth", "High LTV/CAC sensitivity"]
      strategic_implication :=
        "Theoretical absence of paid media signals an Organic or Sales-Led Growth model. " ++
        "The company does not appear to pay for attention, relying instead on brand equity " ++
        "or direct sales outreach to generate leads." }
  else
    { «section» := "Paid Media"
      data_status := "present"
      confidence := "high"
      plausible_causes := ["Performance marketing", "Demand capture"]
      strategic_implication :=
        "Active paid acquisition on " ++ String.intercalate ", " data.platforms ++
        " suggests a machine-like 'Pay-to-Play' growth model. " ++
        "The business economics likely support high CAC, implying strong LTV or aggressive land-grab goals." }

-- ---------------------------------------------------------------------------
-- core/inference.py : posture synthesis
-- ---------------------------------------------------------------------------

/-- The 'Dark Forest' density paragraph selected by `_synthesize_posture`. -/
def densityDarkForest : String :=
  "The target exhibits a 'Dark Forest' signals profile. Public data is scarce, " ++
  "indicating an organization that operates via private relationships, legacy channels, " ++
  "or intentional stealth."

/-- The 'Glass House' density paragraph selected by `_synthesize_posture`. -/
def densityGlassHouse : String :=
  "The target exhibits a 'Glass House' signals profile. Digital operations are highly visible, " ++
  "suggesting a modern, transparent organization that competes in the open market."

/-- The 'Hybrid' density paragraph selected by `_synthesize_posture`. -/
def densityHybrid : String :=
  "The target exhibits a 'Hybrid' signals profile, with strong visibility in some vectors " ++
  "and opacity in others (likely separating public brand from private operations)."

/-- Number of inferences whose `data_status` equals `s`
(`Counter([i.data_status for i in inferences])[s]`). -/
def statusCount (inferences : List SignalInference) (s : String) : Nat :=
  inferences.countP (fun i => i.data_status == s)

/-- The density-profile selection inside `_synthesize_posture`
(`if absent_count > present_count * 2 ... elif present_count > absent_count ... else ...`). -/
def densityProfile (inferences : List SignalInference) : String :=
  let present_count := statusCount inferences "present"
  let absent_count := statusCount inferences "absent" + statusCount inferences "error"
  if present_count * 2 < absent_count then densityDarkForest
  else if absent_count < present_count then densityGlassHouse
  else densityHybrid

/-- The key-factor scan inside `_synthesize_posture`: a `for` loop over the
inferences starting from `key_factor = "Unknown"`; the Customer-Voice and
Paid-Media matches `break`, the Web-Presence match overwrites the
accumulator and keeps scanning. -/
def keyFactorLoop : List SignalInference → String → String
  | [], acc => acc
  | inf :: rest, acc =>
    if inf.«section» == "Customer Voice" && inf.data_status == "absent" then
      "It relies on reputation over public validation"
    else if inf.«section» == "Paid Media" && inf.data_status == "present" then
      "It uses capital to force-multiply growth"
    else if inf.«section» == "Web Presence" && inf.data_status == "present" then
      keyFactorLoop rest "It treats its web presence as a primary asset"
    else
      keyFactorLoop rest acc

/-- `InferenceEngine._synthesize_posture`. -/
def synthesizePosture (inferences : List SignalInference) : String :=
  let density_profile := densityProfile inferences
  let key_factor := keyFactorLoop inferences "Unknown"
  density_profile ++
  " Structurally, the organization appears optimized for control and stability rather than viral speed. " ++
  key_factor ++
  ". Primary vulnerability is likely the gap between internal reality and external perception."

/-- `InferenceEngine.infer`. -/
def infer (raw_profile : RawProfile) : InferredProfile :=
  let web_inf := inferWeb raw_profile.web
  let seo_inf := inferSeo raw_profile.seo
  let tech_inf := inferTech raw_profile.tech_stack
  let reviews_inf := inferReviews raw_profile.reviews
  let social_inf := inferSocial raw_profile.social
  let hiring_inf := inferHiring raw_profile.hiring
  let ads_inf := inferAds raw_profile.ads
  let posture := synthesizePosture
    [web_inf, seo_inf, tech_inf, reviews_inf, social_inf, hiring_inf, ads_inf]
  { web := web_inf
    seo := seo_inf
    tech_stack := tech_inf
    reviews := reviews_inf
    social := social_inf
    hiring := hiring_inf
    ads := ads_inf
    strategic_posture := posture }

-- ---------------------------------------------------------------------------
-- IEEE-754 binary64 model (the score arithmetic of the change detector)
-- ---------------------------------------------------------------------------

/-- Floor of the base-2 logarithm of a positive natural, by structural
recursion on fuel (the fuel far exceeds any bit length arising here). -/
def natLog2F : Nat → Nat → Nat
  | 0, _ => 0
  | fuel + 1, n => if n ≤ 1 then 0 else natLog2F fuel (n / 2) + 1

/-- Floor of the base-2 logarithm of the positive rational `num / den`. -/
def floorLog2 (num den : Nat) : Int :=
  let e0 : Int := (natLog2F 1000 num : Int) - (natLog2F 1000 den : Int)
  if 0 ≤ e0 then
    if 2 ^ e0.toNat * den ≤ num then e0 else e0 - 1
  else
    if den ≤ num * 2 ^ (-e0).toNat then e0 else e0 - 1

/-- Round a rational to the nearest IEEE-754 binary64 value (round to
nearest, ties to even), for arguments in the binary64 normal range — the
only values the stability-score loop produces.  The 53-bit mantissa is
obtained on the ulp grid `2^(floorLog2 |q| - 52)` by integer division with
half-even tie breaking; kernel-computable Nat/Int arithmetic throughout. -/
def roundDouble (q : Rat) : Rat :=
  if q.num = 0 then 0
  else
    let n := q.num.natAbs
    let d := q.den
    let z := floorLog2 n d - 52
    let scaledNum := n * 2 ^ (-z).toNat
    let scaledDen := d * 2 ^ z.toNat
    let fl := scaledNum / scaledDen
    let r := scaledNum % scaledDen
    let mant := if 2 * r < scaledDen then fl
      else if scaledDen < 2 * r then fl + 1
      else if fl % 2 = 0 then fl else fl + 1
    let sgn : Int := if q.num < 0 then -1 else 1
    if 0 ≤ z then mkRat (sgn * (mant * 2 ^ z.toNat : Nat)) 1
    else mkRat (sgn * mant) (2 ^ (-z).toNat)

/-- Exact rational subtraction in kernel-computable form (proved equal to
`a - b` in `ratSub_eq`). -/
def ratSub (a b : Rat) : Rat :=
  mkRat (a.num * (b.den : Int) - b.num * (a.den : Int)) (a.den * b.den)

/-- IEEE binary64 subtraction: the exact difference, correctly rounded. -/
def fsub (a b : Rat) : Rat := roundDouble (ratSub a b)

/-- The binary64 value denoted by the Python literal `0.2`
(`3602879701896397 / 2^54`, slightly above 1/5). -/
def double02 : Rat := roundDouble (mkRat 1 5)

/-- The binary64 value denoted by the Python literal `0.05`
(`3602879701896397 / 2^56`). -/
def double005 : Rat := roundDouble (mkRat 1 20)

/-- The score after `n` binary64 subtractions of `double02` from `x` — the
high-significance branch of the stability loop iterated `n` times. -/
def floatSubN : Nat → Rat → Rat
  | 0, x => x
  | n + 1, x => floatSubN n (fsub x double02)

-- ---------------------------------------------------------------------------
-- core/change_detector.py
-- ---------------------------------------------------------------------------

/-- `SignalShift` (core/change_detector.py). -/
structure SignalShift where
  «section» : String
  shift_type : String
  description : String
  significance : String
  deriving Repr, DecidableEq

/-- `DeltaReport` (core/change_detector.py).  Timestamps are rational epoch
seconds; scores and elapsed days are exact rationals. -/
structure DeltaReport where
  baseline_date : Rat
  comparison_date : Rat
  time_elapsed_days : Rat
  shifts : List SignalShift := []
  overall_stability_score : Rat := 1
  deriving Repr, DecidableEq

/-- `ChangeDetector._diff_section_status`. -/
def diffSectionStatus (curr prev : SignalInference) (section_name : String) :
    List SignalShift :=
  if prev.data_status == "present" && curr.data_status != "present" then
    if curr.data_status == "error" then []
    else
      [{ «section» := section_name
         shift_type := "breakage"
         description :=
           section_name ++ " signals have vanished (was present, now " ++
           curr.data_status ++ ")."
         significance := "high" }]
  else if prev.data_status != "present" && curr.data_status == "present" then
    [{ «section» := section_name
       shift_type := "emergence"
       description :=
         section_name ++ " signals have emerged (previously " ++
         prev.data_status ++ ")."
       significance := "high" }]
  else []

/-- `ChangeDetector._diff_tech`: the status diff dominates; the detail
branches both return the empty list. -/
def diffTech (curr prev : SignalInference) : List SignalShift :=
  let shifts := diffSectionStatus curr prev "Tech Stack"
  if !shifts.isEmpty then shifts
  else if curr.data_status != "present" then []
  else []

/-- `ChangeDetector._diff_hiring`. -/
def diffHiring (curr prev : SignalInference) : List SignalShift :=
  let shifts := diffSectionStatus curr prev "Hiring Signals"
  if !shifts.isEmpty then shifts
  else if curr.data_status != "present" then []
  else []

/-- `ChangeDetector._diff_seo`. -/
def diffSeo (curr prev : SignalInference) : List SignalShift :=
  diffSectionStatus curr prev "SEO Diagnostics"

/-- The stability-score loop of `compute_delta`
(`score = 1.0; for s in shifts: if high: score -= 0.2 elif medium: score -= 0.05`),
with each `-=` performed in IEEE binary64 arithmetic as Python does. -/
def stabilityLoop (shifts : List SignalShift) (score : Rat) : Rat :=
  shifts.foldl
    (fun sc s =>
      if s.significance == "high" then fsub sc double02
      else if s.significance == "medium" then fsub sc double005
      else sc)
    score

/-- `ChangeDetector.compute_delta`. -/
def computeDelta (current previous : InferredProfile)
    (current_date previous_date : Rat) : DeltaReport :=
  let shifts : List SignalShift :=
    diffSectionStatus current.web previous.web "Web Presence" ++
    diffSeo current.seo previous.seo ++
    diffTech current.tech_stack previous.tech_stack ++
    diffHiring current.hiring previous.hiring ++
    diffSectionStatus current.social previous.social "Social Footprint" ++
    diffSectionStatus current.ads previous.ads "Paid Media"
  let elapsed := (current_date - previous_date) / 86400
  let score := stabilityLoop shifts 1
  { baseline_date := previous_date
    comparison_date := current_date
    time_elapsed_days := elapsed
    shifts := shifts
    overall_stability_score := max 0 score }

-- ---------------------------------------------------------------------------
-- agent/cohort.py : matrix normalization and outliers
-- ---------------------------------------------------------------------------

/-- `TargetSignals` (core/cohort_schemas.py), with its schema defaults. -/
structure TargetSignals where
  url : String
  name : Option String := none
  tech_confidence : String := "none"
  probable_cms : Option String := none
  pricing_visible : Bool := false
  docs_visible : Bool := false
  jobs_visible : Bool := false
  paid_ads_detected : Bool := false
  seo_hygiene : String := "unknown"
  social_visibility : String := "none"
  review_visibility : Bool := false
  evidence_snippets : List String := []
  fetch_limits : List String := []
  deriving Repr, DecidableEq

/-- `CohortNorms` (core/cohort_schemas.py). -/
structure CohortNorms where
  total_targets : Nat
  pricing_visible_count : Nat
  docs_visible_count : Nat
  jobs_visible_count : Nat
  paid_ads_count : Nat
  seo_good_count : Nat
  social_high_count : Nat
  review_visible_count : Nat
  pricing_visible_pct : Rat := 0
  docs_visible_pct : Rat := 0
  deriving Repr, DecidableEq

/-- `CohortOutlier` (core/cohort_schemas.py). -/
structure CohortOutlier where
  url : String
  deviations : List String
  direction : String
  deriving Repr, DecidableEq

/-- A completed job result as consumed by `normalize_job_result`
(`job_result.get("result", {})`, then per-surface keys). -/
structure JobResult where
  result : RawProfile := {}
  deriving Repr, DecidableEq

/-- `extract_domain` (utils/cohort_discovery.py): `urlparse(url).netloc`,
lowercased, with a leading `www.` stripped.  For the absolute URLs the
system handles, `netloc` is the text between `"//"` and the next `"/"`
(empty when the URL has no `"//"`). -/
def extract_domain (url : String) : String :=
  let rec netlocAfter : List Char → List Char
    | [] => []
    | '/' :: '/' :: rest => rest.takeWhile (fun c => c != '/')
    | _ :: rest => netlocAfter rest
  let domain := strLower ⟨netlocAfter url.data⟩
  if "www.".isPrefixOf domain then ⟨domain.data.drop 4⟩ else domain

/-- `normalize_job_result` (agent/cohort.py). -/
def normalize_job_result (job_result : JobResult) (url : String) : TargetSignals :=
  let profile := job_result.result
  -- Tech stack
  let tech := profile.tech_stack
  let tech_confidence := tech.confidence.getD "none"
  let probable_cms :=
    if pytruthy tech.probable_cms then tech.probable_cms
    else if pytruthy tech.detected_cms then tech.detected_cms
    else if pytruthy tech.cms then tech.cms else none
  let evidence := tech.evidence.take 2
  -- Web presence for pricing/docs detection
  let web := profile.web
  let web_text := strLower (pyor2 web.raw_html web.text)
  let pricing_visible :=
    ["pricing", "plans", "price", "/pricing"].any (fun kw => strIn kw web_text)
  let docs_visible :=
    ["/docs", "/documentation", "api-docs", "developer"].any (fun kw => strIn kw web_text)
  -- SEO
  let seo := profile.seo
  let seo_issues := seo.meta_issues ++ seo.heading_issues
  let seo_hygiene :=
    if pytruthy seo.error then "unknown"
    else if seo_issues.length == 0 then "good"
    else if seo_issues.length <= 3 then "fair"
    else "poor"
  -- Hiring
  let hiring := profile.hiring
  let jobs_visible := !hiring.open_roles.isEmpty
  -- Ads
  let ads := profile.ads
  let paid_ads_detected := !ads.platforms.isEmpty
  -- Social: note only four platform keys are consulted (no tiktok)
  let social := profile.social
  let has_social :=
    [social.twitter, social.linkedin, social.instagram, social.youtube].any pytruthy
  let social_visibility := if has_social then "high" else "none"
  -- Reviews
  let reviews := profile.reviews
  let review_visibility := pytruthy reviews.summary
  -- Name extraction
  let name := if pytruthy profile.company.name then profile.company.name.getD ""
              else extract_domain url
  -- Per-surface fetch limits, in source order, capped at 5
  let fetch_limits :=
    ((if pytruthy tech.error then ["Tech: " ++ tech.error.getD ""] else []) ++
     (if pytruthy web.error then ["Web: " ++ web.error.getD ""] else []) ++
     (if pytruthy seo.error then ["SEO: " ++ seo.error.getD ""] else []) ++
     (if pytruthy hiring.error then ["Hiring: " ++ hiring.error.getD ""] else []) ++
     (if pytruthy ads.error then ["Ads: " ++ ads.error.getD ""] else []) ++
     (if pytruthy social.error then ["Social: " ++ social.error.getD ""] else []) ++
     (if pytruthy reviews.error then ["Reviews: " ++ reviews.error.getD ""] else [])).take 5
  { url := url
    name := some name
    tech_confidence := tech_confidence
    probable_cms := probable_cms
    pricing_visible := pricing_visible
    docs_visible := docs_visible
    jobs_visible := jobs_visible
    paid_ads_detected := paid_ads_detected
    seo_hygiene := seo_hygiene
    social_visibility := social_visibility
    review_visibility := review_visibility
    evidence_snippets := evidence.take 5
    fetch_limits := fetch_limits }

/-- The per-target body of the `find_outliers` loop, given the four majority
flags; returns the accumulated deviation strings with the up/down counters. -/
def deviationScan (mp md mj ms : Bool) (t : TargetSignals) :
    List String × Nat × Nat :=
  let acc0 : List String × Nat × Nat := ([], 0, 0)
  let step1 :=
    if mp && !t.pricing_visible then
      (acc0.1 ++ ["No visible pricing (norm: visible)"], acc0.2.1, acc0.2.2 + 1)
    else if !mp && t.pricing_visible then
      (acc0.1 ++ ["Visible pricing (norm: hidden)"], acc0.2.1 + 1, acc0.2.2)
    else acc0
  let step2 :=
    if md && !t.docs_visible then
      (step1.1 ++ ["No visible docs (norm: visible)"], step1.2.1, step1.2.2 + 1)
    else if !md && t.docs_visible then
      (step1.1 ++ ["Visible docs (norm: hidden)"], step1.2.1 + 1, step1.2.2)
    else step1
  let step3 :=
    if mj && !t.jobs_visible then
      (step2.1 ++ ["No visible jobs (norm: visible)"], step2.2.1, step2.2.2 + 1)
    else if !mj && t.jobs_visible then
      (step2.1 ++ ["Visible jobs (norm: hidden)"], step2.2.1 + 1, step2.2.2)
    else step2
  if ms && t.social_visibility == "none" then
    (step3.1 ++ ["No social presence (norm: present)"], step3.2.1, step3.2.2 + 1)
  else if !ms && t.social_visibility == "high" then
    (step3.1 ++ ["High social presence (norm: low)"], step3.2.1 + 1, step3.2.2)
  else step3

/-- `find_outliers` (agent/cohort.py).  The Python majority test
`count > n / 2` is exact float arithmetic for the cohort sizes involved and
is embedded as the equivalent integer comparison `n < 2 * count`. -/
def find_outliers (targets : List TargetSignals) (norms : CohortNorms) :
    List CohortOutlier :=
  if norms.total_targets < 3 then []
  else
    let n := norms.total_targets
    let majority_pricing := n < 2 * norms.pricing_visible_count
    let majority_docs := n < 2 * norms.docs_visible_count
    let majority_jobs := n < 2 * norms.jobs_visible_count
    let majority_social := n < 2 * norms.social_high_count
    targets.filterMap fun t =>
      let scan := deviationScan majority_pricing majority_docs majority_jobs majority_social t
      let deviations := scan.1
      let direction_up := scan.2.1
      let direction_down := scan.2.2
      if 2 <= deviations.length then
        some { url := t.url
               deviations := deviations
               direction :=
                 if direction_down < direction_up then "above"
                 else if direction_up < direction_down then "below"
                 else "mixed" }
      else none


-- ---------------------------------------------------------------------------
-- Claim-side model of the outlier rule (for comparison with find_outliers)
-- ---------------------------------------------------------------------------

/-- Modelled from the claim: over the 4 tracked boolean signals (pricing,
docs, jobs, social-visibility-high), the number of signals the target shows
while the majority flag is off. -/
def claimUpCount (mp md mj ms : Bool) (t : TargetSignals) : Nat :=
  (if !mp && t.pricing_visible then 1 else 0) +
  (if !md && t.docs_visible then 1 else 0) +
  (if !mj && t.jobs_visible then 1 else 0) +
  (if !ms && (t.social_visibility == "high") then 1 else 0)

/-- Modelled from the claim: the number of the 4 tracked boolean signals the
target lacks while the majority flag is on. -/
def claimDownCount (mp md mj ms : Bool) (t : TargetSignals) : Nat :=
  (if mp && !t.pricing_visible then 1 else 0) +
  (if md && !t.docs_visible then 1 else 0) +
  (if mj && !t.jobs_visible then 1 else 0) +
  (if ms && !(t.social_visibility == "high") then 1 else 0)

/-- Modelled from the claim: the (url, direction) pairs of exactly those
targets that contradict the strict majority (`count > n/2`) on at least 2 of
the 4 boolean signals, labelled "above"/"below"/"mixed" by comparing upward
and downward deviation counts. -/
def claimOutlierPairs (targets : List TargetSignals) (norms : CohortNorms) :
    List (String × String) :=
  if norms.total_targets < 3 then []
  else
    let n := norms.total_targets
    let mp := n < 2 * norms.pricing_visible_count
    let md := n < 2 * norms.docs_visible_count
    let mj := n < 2 * norms.jobs_visible_count
    let ms := n < 2 * norms.social_high_count
    targets.filterMap fun t =>
      let up := claimUpCount mp md mj ms t
      let down := claimDownCount mp md mj ms t
      if 2 <= up + down then
        some (t.url,
          if down < up then "above" else if up < down then "below" else "mixed")
      else none

-- ---------------------------------------------------------------------------
-- Helper lemmas
-- ---------------------------------------------------------------------------

/-- The bounded data-status taxonomy of the engine. -/
def statusDomain : List String := ["present", "absent", "partial", "error"]

lemma append_ne_empty_left (a b : String) (h : a ≠ "") : a ++ b ≠ "" := by
  intro hab
  apply h
  have hd : a.data ++ b.data = ("" : String).data := by
    rw [← String.data_append, hab]
  exact String.ext (List.append_eq_nil.mp hd).1

lemma inferWeb_total (b : WebBlock) :
    (inferWeb b).strategic_implication ≠ "" ∧
    (inferWeb b).data_status ∈ statusDomain := by
  unfold inferWeb
  try dsimp only
  repeat' split
  all_goals refine ⟨?_, by dsimp only; decide⟩
  all_goals repeat apply append_ne_empty_left
  all_goals decide

lemma inferSeo_total (b : SeoBlock) :
    (inferSeo b).strategic_implication ≠ "" ∧
    (inferSeo b).data_status ∈ statusDomain := by
  unfold inferSeo
  try dsimp only
  repeat' split
  all_goals refine ⟨?_, by dsimp only; decide⟩
  all_goals repeat apply append_ne_empty_left
  all_goals decide

lemma inferTech_total (b : TechBlock) :
    (inferTech b).strategic_implication ≠ "" ∧
    (inferTech b).data_status ∈ statusDomain := by
  unfold inferTech
  try dsimp only
  repeat' split
  all_goals refine ⟨?_, by dsimp only; decide⟩
  all_goals repeat apply append_ne_empty_left
  all_goals decide

lemma inferReviews_total (b : ReviewsBlock) :
    (inferReviews b).strategic_implication ≠ "" ∧
    (inferReviews b).data_status ∈ statusDomain := by
  unfold inferReviews
  try dsimp only
  repeat' split
  all_goals refine ⟨?_, by dsimp only; decide⟩
  all_goals repeat apply append_ne_empty_left
  all_goals decide

lemma inferSocial_total (b : SocialBlock) :
    (inferSocial b).strategic_implication ≠ "" ∧
    (inferSocial b).data_status ∈ statusDomain := by
  unfold inferSocial
  try dsimp only
  repeat' split
  all_goals refine ⟨?_, by dsimp only; decide⟩
  all_goals repeat apply append_ne_empty_left
  all_goals decide

lemma inferHiring_total (b : HiringBlock) :
    (inferHiring b).strategic_implication ≠ "" ∧
    (inferHiring b).data_status ∈ statusDomain := by
  unfold inferHiring
  try dsimp only
  repeat' split
  all_goals refine ⟨?_, by dsimp only; decide⟩
  all_goals repeat apply append_ne_empty_left
  all_goals decide

lemma inferAds_total (b : AdsBlock) :
    (inferAds b).strategic_implication ≠ "" ∧
    (inferAds b).data_status ∈ statusDomain := by
  unfold inferAds
  try dsimp only
  repeat' split
  all_goals refine ⟨?_, by dsimp only; decide⟩
  all_goals repeat apply append_ne_empty_left
  all_goals decide

lemma densityProfile_cases (infs : List SignalInference) :
    densityProfile infs = densityDarkForest ∨
    densityProfile infs = densityGlassHouse ∨
    densityProfile infs = densityHybrid := by
  unfold densityProfile
  dsimp only
  split
  · exact Or.inl rfl
  split
  · exact Or.inr (Or.inl rfl)
  · exact Or.inr (Or.inr rfl)

lemma infix_data_of_prefix_left {t d : String} (r : String)
    (h : t.data <+: d.data) : t.data <:+: (d ++ r).data := by
  rw [String.data_append]
  exact (h.trans (List.prefix_append d.data r.data)).isInfix

lemma posture_contains_target_exhibits (infs : List SignalInference) :
    "The target exhibits".data <:+: (synthesizePosture infs).data := by
  have hpost : synthesizePosture infs =
      densityProfile infs ++
      (" Structurally, the organization appears optimized for control and stability rather than viral speed. " ++
       (keyFactorLoop infs "Unknown" ++
        ". Primary vulnerability is likely the gap between internal reality and external perception.")) := by
    unfold synthesizePosture
    rw [String.append_assoc, String.append_assoc]
  rw [hpost]
  rcases densityProfile_cases infs with h | h | h <;> rw [h] <;>
    exact infix_data_of_prefix_left _ (by decide)

/-- C1: for every raw profile (the empty mapping and mappings with missing
surface keys included), `infer` totally produces an `InferredProfile` whose
7 section inferences all carry a non-empty `strategic_implication` and a
`data_status` in {present, absent, partial, error}, and whose
`strategic_posture` contains the substring "The target exhibits".
(`infer` is a total Lean function, so "returns without raising" holds by
construction.) -/
theorem infer_totality (p : RawProfile) :
    (∀ i ∈ [(infer p).web, (infer p).seo, (infer p).tech_stack, (infer p).reviews,
            (infer p).social, (infer p).hiring, (infer p).ads],
        i.strategic_implication ≠ "" ∧ i.data_status ∈ statusDomain) ∧
    "The target exhibits".data <:+: (infer p).strategic_posture.data := by
  constructor
  · intro i hi
    simp only [List.mem_cons, List.not_mem_nil, or_false] at hi
    rcases hi with h | h | h | h | h | h | h <;> subst h
    · exact inferWeb_total p.web
    · exact inferSeo_total p.seo
    · exact inferTech_total p.tech_stack
    · exact inferReviews_total p.reviews
    · exact inferSocial_total p.social
    · exact inferHiring_total p.hiring
    · exact inferAds_total p.ads
  · exact posture_contains_target_exhibits _

/-- C2 counterexample: a tech_stack dict with a truthy `error` but a "high"
`confidence` field is classified "present", not "absent" — `_infer_tech`
never consults `error`, so the claim quantified over *every* raw surface
dict with truthy error fails on the tech_stack surface. -/
theorem tech_error_ignored_counterexample :
    pytruthy ({ error := some "X", confidence := some "high" } : TechBlock).error = true ∧
    (inferTech { error := some "X", confidence := some "high" }).data_status = "present" ∧
    (inferTech { error := some "X", confidence := some "high" }).data_status ≠ "absent" := by
  decide

/-- C2 (amended): for web, reviews, social, hiring and ads, any raw dict
with a truthy `error` yields `data_status = "absent"`; for SEO it yields
`"error"`; tech_stack does not consult `error` at all, but on the bare dict
`{"error": e}` (no other keys) it also yields `"absent"`. -/
theorem error_status_by_surface :
    (∀ b : WebBlock, pytruthy b.error = true → (inferWeb b).data_status = "absent") ∧
    (∀ b : SeoBlock, pytruthy b.error = true → (inferSeo b).data_status = "error") ∧
    (∀ b : ReviewsBlock, pytruthy b.error = true → (inferReviews b).data_status = "absent") ∧
    (∀ b : SocialBlock, pytruthy b.error = true → (inferSocial b).data_status = "absent") ∧
    (∀ b : HiringBlock, pytruthy b.error = true → (inferHiring b).data_status = "absent") ∧
    (∀ b : AdsBlock, pytruthy b.error = true → (inferAds b).data_status = "absent") ∧
    (∀ e : String, pytruthy (some e) = true →
      (inferTech { error := some e }).data_status = "absent") := by
  refine ⟨?_, ?_, ?_, ?_, ?_, ?_, ?_⟩
  · intro b h; simp [inferWeb, h]
  · intro b h; simp [inferSeo, h]
  · intro b h; simp [inferReviews, h]
  · intro b h; simp [inferSocial, h]
  · intro b h; simp [inferHiring, h]
  · intro b h; simp [inferAds, h]
  · intro e _; rfl

/-- Witness for `error_status_by_surface` at the concrete dict
`{"error": "X"}` on each surface. -/
theorem error_status_by_surface_witness :
    (inferWeb { error := some "X" }).data_status = "absent" ∧
    (inferSeo { error := some "X" }).data_status = "error" ∧
    (inferReviews { error := some "X" }).data_status = "absent" ∧
    (inferSocial { error := some "X" }).data_status = "absent" ∧
    (inferHiring { error := some "X" }).data_status = "absent" ∧
    (inferAds { error := some "X" }).data_status = "absent" ∧
    (inferTech { error := some "X" }).data_status = "absent" := by
  refine ⟨?_, ?_, ?_, ?_, ?_, ?_, ?_⟩
  · exact error_status_by_surface.1 _ (by decide)
  · exact error_status_by_surface.2.1 _ (by decide)
  · exact error_status_by_surface.2.2.1 _ (by decide)
  · exact error_status_by_surface.2.2.2.1 _ (by decide)
  · exact error_status_by_surface.2.2.2.2.1 _ (by decide)
  · exact error_status_by_surface.2.2.2.2.2.1 _ (by decide)
  · exact error_status_by_surface.2.2.2.2.2.2 "X" (by decide)

lemma diffTech_eq_status (curr prev : SignalInference) :
    diffTech curr prev = diffSectionStatus curr prev "Tech Stack" := by
  unfold diffTech
  cases h : diffSectionStatus curr prev "Tech Stack" with
  | nil => simp
  | cons a l => simp

lemma diffHiring_eq_status (curr prev : SignalInference) :
    diffHiring curr prev = diffSectionStatus curr prev "Hiring Signals" := by
  unfold diffHiring
  cases h : diffSectionStatus curr prev "Hiring Signals" with
  | nil => simp
  | cons a l => simp

/-- C4: for the generic status diff every diffed section routes through
(web, social and ads directly; SEO, tech and hiring via delegating
wrappers): present→error is suppressed entirely; present→(any other
non-present status) emits exactly one high-significance breakage shift;
(non-present)→present emits exactly one high-significance emergence shift. -/
theorem diff_section_transitions (curr prev : SignalInference) (name : String) :
    (prev.data_status = "present" → curr.data_status = "error" →
      diffSectionStatus curr prev name = []) ∧
    (prev.data_status = "present" → curr.data_status ≠ "present" →
      curr.data_status ≠ "error" →
      diffSectionStatus curr prev name =
        [{ «section» := name, shift_type := "breakage",
           description := name ++ " signals have vanished (was present, now " ++
             curr.data_status ++ ").",
           significance := "high" }]) ∧
    (prev.data_status ≠ "present" → curr.data_status = "present" →
      diffSectionStatus curr prev name =
        [{ «section» := name, shift_type := "emergence",
           description := name ++ " signals have emerged (previously " ++
             prev.data_status ++ ").",
           significance := "high" }]) ∧
    diffSeo curr prev = diffSectionStatus curr prev "SEO Diagnostics" ∧
    diffTech curr prev = diffSectionStatus curr prev "Tech Stack" ∧
    diffHiring curr prev = diffSectionStatus curr prev "Hiring Signals" := by
  refine ⟨?_, ?_, ?_, rfl, diffTech_eq_status curr prev, diffHiring_eq_status curr prev⟩
  · intro hp hc
    have hc' : curr.data_status ≠ "present" := by rw [hc]; decide
    simp [diffSectionStatus, hp, hc, hc']
  · intro hp hc he
    simp [diffSectionStatus, hp, hc, he]
  · intro hp hc
    simp [diffSectionStatus, hp, hc]

/-- Witness for `diff_section_transitions`: the three transition rules
applied at concrete inferences for the Web Presence section. -/
theorem diff_section_transitions_witness :
    diffSectionStatus (inferSeo { error := some "X" })
      (inferWeb { meta := some { title := some "T" } }) "Web Presence" = [] ∧
    diffSectionStatus (inferWeb { error := some "X" })
      (inferWeb { meta := some { title := some "T" } }) "Web Presence" =
      [{ «section» := "Web Presence", shift_type := "breakage",
         description := "Web Presence signals have vanished (was present, now absent).",
         significance := "high" }] ∧
    diffSectionStatus (inferWeb { meta := some { title := some "T" } })
      (inferWeb { error := some "X" }) "Web Presence" =
      [{ «section» := "Web Presence", shift_type := "emergence",
         description := "Web Presence signals have emerged (previously absent).",
         significance := "high" }] := by
  refine ⟨?_, ?_, ?_⟩
  · exact (diff_section_transitions _ _ _).1 (by decide) (by decide)
  · have h := (diff_section_transitions (inferWeb { error := some "X" })
      (inferWeb { meta := some { title := some "T" } }) "Web Presence").2.1
      (by decide) (by decide) (by decide)
    rw [h]
    decide
  · have h := (diff_section_transitions (inferWeb { meta := some { title := some "T" } })
      (inferWeb { error := some "X" }) "Web Presence").2.2.1
      (by decide) (by decide)
    rw [h]
    decide

/-- C5: `compute_delta` never consults the reviews section: two invocations
whose profile pairs agree on every non-reviews field (and on both dates)
return identical `DeltaReport`s, whatever the reviews inferences are — in
particular no shift is ever emitted for a reviews `data_status` transition. -/
theorem compute_delta_ignores_reviews
    (c p c' p' : InferredProfile) (cd pd : Rat)
    (hw : c.web = c'.web) (hs : c.seo = c'.seo) (ht : c.tech_stack = c'.tech_stack)
    (hso : c.social = c'.social) (hh : c.hiring = c'.hiring) (ha : c.ads = c'.ads)
    (hsp : c.strategic_posture = c'.strategic_posture)
    (hw' : p.web = p'.web) (hs' : p.seo = p'.seo) (ht' : p.tech_stack = p'.tech_stack)
    (hso' : p.social = p'.social) (hh' : p.hiring = p'.hiring) (ha' : p.ads = p'.ads)
    (hsp' : p.strategic_posture = p'.strategic_posture) :
    computeDelta c p cd pd = computeDelta c' p' cd pd := by
  unfold computeDelta
  rw [hw, hs, ht, hso, hh, ha, hw', hs', ht', hso', hh', ha']

/-- Witness for `compute_delta_ignores_reviews`: swapping a present-reviews
inference for an absent one on both sides (a reviews status transition in
one direction and none in the other) leaves the report unchanged. -/
theorem compute_delta_ignores_reviews_witness :
    computeDelta
      { (infer {}) with reviews := inferReviews { summary := some "S" } }
      (infer {}) 86400 0 =
    computeDelta
      (infer {})
      { (infer {}) with reviews := inferReviews { summary := some "S" } } 86400 0 :=
  compute_delta_ignores_reviews _ _ _ _ 86400 0
    rfl rfl rfl rfl rfl rfl rfl rfl rfl rfl rfl rfl rfl rfl

lemma keyFactorLoop_mem (l : List SignalInference) (acc : String) :
    keyFactorLoop l acc = "It relies on reputation over public validation" ∨
    keyFactorLoop l acc = "It uses capital to force-multiply growth" ∨
    keyFactorLoop l acc = "It treats its web presence as a primary asset" ∨
    keyFactorLoop l acc = acc := by
  induction l generalizing acc with
  | nil => exact Or.inr (Or.inr (Or.inr rfl))
  | cons a rest ih =>
    unfold keyFactorLoop
    split
    · exact Or.inl rfl
    split
    · exact Or.inr (Or.inl rfl)
    split
    · rcases ih "It treats its web presence as a primary asset" with h | h | h | h
      · exact Or.inl h
      · exact Or.inr (Or.inl h)
      · exact Or.inr (Or.inr (Or.inl h))
      · exact Or.inr (Or.inr (Or.inl h))
    · exact ih acc

lemma synthesizePosture_decomp (infs : List SignalInference) :
    synthesizePosture infs =
      densityProfile infs ++
      " Structurally, the organization appears optimized for control and stability rather than viral speed. " ++
      keyFactorLoop infs "Unknown" ++
      ". Primary vulnerability is likely the gap between internal reality and external perception." := rfl

set_option maxRecDepth 40000 in
/-- C6: over any list of 7 section inferences, with `pc` the number of
"present" statuses and `ac` the number of "absent" plus "error" statuses,
the synthesized posture mentions the 'Dark Forest' profile exactly when
`ac > 2·pc`, otherwise the 'Glass House' profile exactly when `pc > ac`,
and the 'Hybrid' profile in every remaining case (`strIn` is the embedded
Python substring test). -/
theorem posture_density_rule (infs : List SignalInference) (hlen : infs.length = 7) :
    (strIn "'Dark Forest'" (synthesizePosture infs) = true ↔
      statusCount infs "present" * 2 <
        statusCount infs "absent" + statusCount infs "error") ∧
    (strIn "'Glass House'" (synthesizePosture infs) = true ↔
      ¬(statusCount infs "present" * 2 <
          statusCount infs "absent" + statusCount infs "error") ∧
        statusCount infs "absent" + statusCount infs "error" <
          statusCount infs "present") ∧
    (strIn "'Hybrid'" (synthesizePosture infs) = true ↔
      ¬(statusCount infs "present" * 2 <
          statusCount infs "absent" + statusCount infs "error") ∧
      ¬(statusCount infs "absent" + statusCount infs "error" <
          statusCount infs "present")) := by
  rw [synthesizePosture_decomp]
  by_cases h1 : statusCount infs "present" * 2 <
      statusCount infs "absent" + statusCount infs "error"
  · have hd : densityProfile infs = densityDarkForest := by
      unfold densityProfile
      dsimp only
      rw [if_pos h1]
    rw [hd]
    obtain hkf | hkf | hkf | hkf := keyFactorLoop_mem infs "Unknown" <;> rw [hkf] <;>
      exact ⟨iff_of_true (by decide) h1,
             iff_of_false (by decide) (fun hx => hx.1 h1),
             iff_of_false (by decide) (fun hx => hx.1 h1)⟩
  · by_cases h2 : statusCount infs "absent" + statusCount infs "error" <
        statusCount infs "present"
    · have hd : densityProfile infs = densityGlassHouse := by
        unfold densityProfile
        dsimp only
        rw [if_neg h1, if_pos h2]
      rw [hd]
      obtain hkf | hkf | hkf | hkf := keyFactorLoop_mem infs "Unknown" <;> rw [hkf] <;>
        exact ⟨iff_of_false (by decide) (fun hx => h1 hx),
               iff_of_true (by decide) ⟨h1, h2⟩,
               iff_of_false (by decide) (fun hx => hx.2 h2)⟩
    · have hd : densityProfile infs = densityHybrid := by
        unfold densityProfile
        dsimp only
        rw [if_neg h1, if_neg h2]
      rw [hd]
      obtain hkf | hkf | hkf | hkf := keyFactorLoop_mem infs "Unknown" <;> rw [hkf] <;>
        exact ⟨iff_of_false (by decide) (fun hx => h1 hx),
               iff_of_false (by decide) (fun hx => h2 hx.2),
               iff_of_true (by decide) ⟨h1, h2⟩⟩

set_option maxRecDepth 40000 in
/-- Witness for `posture_density_rule`: a concrete all-absent 7-section
profile (the inferences of the empty raw profile, reviews forced absent) is
classified 'Dark Forest'. -/
theorem posture_density_rule_witness :
    strIn "'Dark Forest'"
      (synthesizePosture
        [inferWeb { error := some "X" }, inferSeo { error := some "X" },
         inferTech {}, inferReviews {}, inferSocial {}, inferHiring {},
         inferAds {}]) = true :=
  (posture_density_rule
    [inferWeb { error := some "X" }, inferSeo { error := some "X" },
     inferTech {}, inferReviews {}, inferSocial {}, inferHiring {},
     inferAds {}] (by decide)).1.mpr (by decide)

lemma deviationScan_spec (mp md mj ms : Bool) (t : TargetSignals)
    (h : t.social_visibility = "high" ∨ t.social_visibility = "none") :
    (deviationScan mp md mj ms t).1.length =
      claimUpCount mp md mj ms t + claimDownCount mp md mj ms t ∧
    (deviationScan mp md mj ms t).2.1 = claimUpCount mp md mj ms t ∧
    (deviationScan mp md mj ms t).2.2 = claimDownCount mp md mj ms t := by
  obtain ⟨u, n, tc, pc, pv, dv, jv, pa, sh, sv, rv, ev, fl⟩ := t
  rcases h with h | h <;> dsimp only at h <;> subst h <;>
    cases mp <;> cases md <;> cases mj <;> cases ms <;>
    cases pv <;> cases dv <;> cases jv <;>
    simp [deviationScan, claimUpCount, claimDownCount]

/-- C7 counterexample: with a social-high majority, a target whose
`social_visibility` is `"low"` lacks the boolean social-high signal yet is
not counted as deviating by `find_outliers`, so the claim's
"contradicts the majority on ≥2 of the 4 signals" characterization fails:
the target below contradicts the majority on pricing and on social-high
(2 signals) but is not returned. -/
theorem find_outliers_counterexample :
    (find_outliers
        [{ url := "https://a.com", pricing_visible := true, social_visibility := "high" },
         { url := "https://b.com", pricing_visible := true, social_visibility := "high" },
         { url := "https://c.com", social_visibility := "low" }]
        { total_targets := 3, pricing_visible_count := 2, docs_visible_count := 0,
          jobs_visible_count := 0, paid_ads_count := 0, seo_good_count := 0,
          social_high_count := 2, review_visible_count := 0 }).map
      (fun o => (o.url, o.direction)) = [] ∧
    claimOutlierPairs
        [{ url := "https://a.com", pricing_visible := true, social_visibility := "high" },
         { url := "https://b.com", pricing_visible := true, social_visibility := "high" },
         { url := "https://c.com", social_visibility := "low" }]
        { total_targets := 3, pricing_visible_count := 2, docs_visible_count := 0,
          jobs_visible_count := 0, paid_ads_count := 0, seo_good_count := 0,
          social_high_count := 2, review_visible_count := 0 } =
      [("https://c.com", "below")] := by
  decide

/-- C7 (amended): `find_outliers` returns the empty list whenever
`total_targets < 3` regardless of deviations; and restricted to targets
whose `social_visibility` is `"high"` or `"none"` (the only values the
normalizer ever produces — `"low"` under a social-high majority is not
counted as a deviation by the code), it returns exactly those targets that
contradict the strict majority (`count > n/2`) on at least 2 of the 4
tracked signals, labelled "above"/"below"/"mixed" by comparing upward and
downward deviation counts. -/
theorem find_outliers_rule (targets : List TargetSignals) (norms : CohortNorms)
    (hsoc : ∀ t ∈ targets,
      t.social_visibility = "high" ∨ t.social_visibility = "none") :
    (norms.total_targets < 3 → find_outliers targets norms = []) ∧
    (find_outliers targets norms).map (fun o => (o.url, o.direction)) =
      claimOutlierPairs targets norms := by
  constructor
  · intro hlt
    unfold find_outliers
    rw [if_pos hlt]
  · by_cases hlt : norms.total_targets < 3
    · unfold find_outliers claimOutlierPairs
      rw [if_pos hlt, if_pos hlt]
      rfl
    · unfold find_outliers claimOutlierPairs
      rw [if_neg hlt, if_neg hlt]
      try dsimp only
      rw [List.map_filterMap]
      apply List.filterMap_congr
      intro t ht
      obtain ⟨hl, hu, hd⟩ := deviationScan_spec _ _ _ _ t (hsoc t ht)
      try dsimp only
      rw [hl, hu, hd]
      by_cases hc : 2 ≤ claimUpCount
          (decide (norms.total_targets < 2 * norms.pricing_visible_count))
          (decide (norms.total_targets < 2 * norms.docs_visible_count))
          (decide (norms.total_targets < 2 * norms.jobs_visible_count))
          (decide (norms.total_targets < 2 * norms.social_high_count)) t +
        claimDownCount
          (decide (norms.total_targets < 2 * norms.pricing_visible_count))
          (decide (norms.total_targets < 2 * norms.docs_visible_count))
          (decide (norms.total_targets < 2 * norms.jobs_visible_count))
          (decide (norms.total_targets < 2 * norms.social_high_count)) t
      · rw [if_pos hc, if_pos hc]
        rfl
      · rw [if_neg hc, if_neg hc]
        rfl

/-- Witness for `find_outliers_rule`: a 3-target cohort whose third member
contradicts the pricing and docs majorities is returned as the unique
outlier with direction "below", and a 2-target cohort returns nothing. -/
theorem find_outliers_rule_witness :
    (find_outliers
        [{ url := "https://a.com", pricing_visible := true, docs_visible := true },
         { url := "https://b.com", pricing_visible := true, docs_visible := true },
         { url := "https://c.com" }]
        { total_targets := 3, pricing_visible_count := 2, docs_visible_count := 2,
          jobs_visible_count := 0, paid_ads_count := 0, seo_good_count := 0,
          social_high_count := 0, review_visible_count := 0 }).map
      (fun o => (o.url, o.direction)) =
      claimOutlierPairs
        [{ url := "https://a.com", pricing_visible := true, docs_visible := true },
         { url := "https://b.com", pricing_visible := true, docs_visible := true },
         { url := "https://c.com" }]
        { total_targets := 3, pricing_visible_count := 2, docs_visible_count := 2,
          jobs_visible_count := 0, paid_ads_count := 0, seo_good_count := 0,
          social_high_count := 0, review_visible_count := 0 } ∧
    find_outliers
        [{ url := "https://a.com", pricing_visible := true, docs_visible := true }]
        { total_targets := 2, pricing_visible_count := 1, docs_visible_count := 1,
          jobs_visible_count := 0, paid_ads_count := 0, seo_good_count := 0,
          social_high_count := 0, review_visible_count := 0 } = [] := by
  constructor
  · exact (find_outliers_rule _ _ (by decide)).2
  · exact (find_outliers_rule _ _ (by decide)).1 (by decide)

/-- C8 counterexample: an SEO dict with no error and exactly one issue is
classified `partial`, but with confidence `"high"`, not `"medium"` or
`"low"` as the claim states. -/
theorem seo_partial_confidence_counterexample :
    pytruthy ({ meta_issues := ["Missing H1"] } : SeoBlock).error = false ∧
    (inferSeo { meta_issues := ["Missing H1"] }).data_status = "partial" ∧
    (inferSeo { meta_issues := ["Missing H1"] }).confidence ≠ "medium" ∧
    (inferSeo { meta_issues := ["Missing H1"] }).confidence ≠ "low" := by
  decide

/-- C8 (amended): for every SEO raw dict with no truthy error and between 1
and 3 total issues (`meta_issues ++ heading_issues`), the SEO inference is
classified `data_status = "partial"` with confidence `"high"` (the code
hard-codes "high" on this branch), and its `risk_note` quotes the first
issue. -/
theorem seo_partial_classification (b : SeoBlock)
    (herr : pytruthy b.error = false)
    (h1 : 1 ≤ (b.meta_issues ++ b.heading_issues).length)
    (h3 : (b.meta_issues ++ b.heading_issues).length ≤ 3) :
    (inferSeo b).data_status = "partial" ∧
    (inferSeo b).confidence = "high" ∧
    (inferSeo b).risk_note =
      some ("Primary issue: " ++ (b.meta_issues ++ b.heading_issues).headD "Unknown") := by
  have hne : (b.meta_issues ++ b.heading_issues).isEmpty = false := by
    cases hmi : b.meta_issues ++ b.heading_issues with
    | nil => rw [hmi] at h1; simp at h1
    | cons a l => rfl
  unfold inferSeo
  dsimp only
  rw [herr]
  simp [hne]

/-- Witness for `seo_partial_classification` at one concrete single-issue
SEO dict. -/
theorem seo_partial_classification_witness :
    (inferSeo { meta_issues := ["Missing H1"] }).data_status = "partial" ∧
    (inferSeo { meta_issues := ["Missing H1"] }).confidence = "high" ∧
    (inferSeo { meta_issues := ["Missing H1"] }).risk_note =
      some "Primary issue: Missing H1" :=
  seo_partial_classification { meta_issues := ["Missing H1"] }
    (by decide) (by decide) (by decide)

/-- C9: evaluation of `normalize_job_result` at the failing input.  The web
scraper contract and the repository's own `WebData` model carry the page
text under `clean_text`, and the spec says the keyword match runs over
`raw_html` or `clean_text`; but the code reads `web.get("text")`, a key no
producer sets, so a web block whose only text is `clean_text` (containing
both a pricing and a docs keyword) yields `pricing_visible = false` and
`docs_visible = false`, while a `raw_html` block behaves as claimed. -/
theorem pricing_docs_keyword_divergence :
    strIn "pricing"
      (strLower ((({ result := { web := { clean_text := some "See our pricing and /docs pages" } } } :
        JobResult).result.web.clean_text).getD "")) = true ∧
    strIn "/docs"
      (strLower ((({ result := { web := { clean_text := some "See our pricing and /docs pages" } } } :
        JobResult).result.web.clean_text).getD "")) = true ∧
    (normalize_job_result
      { result := { web := { clean_text := some "See our pricing and /docs pages" } } }
      "https://x.com").pricing_visible = false ∧
    (normalize_job_result
      { result := { web := { clean_text := some "See our pricing and /docs pages" } } }
      "https://x.com").docs_visible = false ∧
    (normalize_job_result
      { result := { web := { raw_html := some "See our pricing and /docs pages" } } }
      "https://x.com").pricing_visible = true ∧
    (normalize_job_result
      { result := { web := { raw_html := some "See our pricing and /docs pages" } } }
      "https://x.com").docs_visible = true := by
  decide

/-- C10: on a raw profile whose social block has no truthy error and whose
only truthy platform key is `tiktok`, the inference engine (which consults
twitter, linkedin, instagram, youtube *and* tiktok) classifies the Social
Footprint section `present`, while `normalize_job_result` (which consults
only the first four) reports `social_visibility = "none"` for the same
profile: the two components classify the same entity's social signal
inconsistently. -/
theorem social_tiktok_inconsistency (p : RawProfile) (url : String)
    (herr : pytruthy p.social.error = false)
    (htk : pytruthy p.social.tiktok = true)
    (h1 : pytruthy p.social.twitter = false)
    (h2 : pytruthy p.social.linkedin = false)
    (h3 : pytruthy p.social.instagram = false)
    (h4 : pytruthy p.social.youtube = false) :
    (infer p).social.data_status = "present" ∧
    (normalize_job_result { result := p } url).social_visibility = "none" := by
  constructor
  · have hsoc : (infer p).social = inferSocial p.social := rfl
    rw [hsoc]
    unfold inferSocial
    simp [htk, herr]
  · unfold normalize_job_result
    simp [h1, h2, h3, h4]

/-- Witness for `social_tiktok_inconsistency` at a concrete profile whose
social block is `{"tiktok": "https://tiktok.com/@x"}`. -/
theorem social_tiktok_inconsistency_witness :
    (infer { social := { tiktok := some "https://tiktok.com/@x" } }).social.data_status =
      "present" ∧
    (normalize_job_result
      { result := { social := { tiktok := some "https://tiktok.com/@x" } } }
      "https://x.com").social_visibility = "none" :=
  social_tiktok_inconsistency { social := { tiktok := some "https://tiktok.com/@x" } }
    "https://x.com" (by decide) (by decide) (by decide) (by decide) (by decide) (by decide)

lemma ratSub_eq (a b : Rat) : ratSub a b = a - b := by
  rw [ratSub, Rat.mkRat_eq_div]
  push_cast
  conv_rhs => rw [← Rat.num_div_den a, ← Rat.num_div_den b]
  rw [div_sub_div _ _ (by exact_mod_cast a.den_nz) (by exact_mod_cast b.den_nz)]
  ring_nf

lemma diffSectionStatus_sig (curr prev : SignalInference) (name : String) :
    ∀ s ∈ diffSectionStatus curr prev name, s.significance = "high" := by
  unfold diffSectionStatus
  repeat' split
  all_goals intro s hs
  all_goals simp at hs
  all_goals subst hs
  all_goals rfl

lemma diffSectionStatus_length_le (curr prev : SignalInference) (name : String) :
    (diffSectionStatus curr prev name).length ≤ 1 := by
  unfold diffSectionStatus
  repeat' split
  all_goals simp

lemma computeDelta_shifts_high (c p : InferredProfile) (cd pd : Rat) :
    ∀ s ∈ (computeDelta c p cd pd).shifts, s.significance = "high" := by
  intro s hs
  have hmem : (computeDelta c p cd pd).shifts =
      diffSectionStatus c.web p.web "Web Presence" ++ diffSeo c.seo p.seo ++
      diffTech c.tech_stack p.tech_stack ++ diffHiring c.hiring p.hiring ++
      diffSectionStatus c.social p.social "Social Footprint" ++
      diffSectionStatus c.ads p.ads "Paid Media" := rfl
  rw [hmem, diffTech_eq_status, diffHiring_eq_status] at hs
  simp only [diffSeo, List.mem_append] at hs
  rcases hs with ((((h | h) | h) | h) | h) | h
  all_goals exact diffSectionStatus_sig _ _ _ s h

lemma computeDelta_shifts_length_le (c p : InferredProfile) (cd pd : Rat) :
    (computeDelta c p cd pd).shifts.length ≤ 6 := by
  have hmem : (computeDelta c p cd pd).shifts =
      diffSectionStatus c.web p.web "Web Presence" ++ diffSeo c.seo p.seo ++
      diffTech c.tech_stack p.tech_stack ++ diffHiring c.hiring p.hiring ++
      diffSectionStatus c.social p.social "Social Footprint" ++
      diffSectionStatus c.ads p.ads "Paid Media" := rfl
  rw [hmem, diffTech_eq_status, diffHiring_eq_status]
  simp only [diffSeo, List.length_append]
  have h1 := diffSectionStatus_length_le c.web p.web "Web Presence"
  have h2 := diffSectionStatus_length_le c.seo p.seo "SEO Diagnostics"
  have h3 := diffSectionStatus_length_le c.tech_stack p.tech_stack "Tech Stack"
  have h4 := diffSectionStatus_length_le c.hiring p.hiring "Hiring Signals"
  have h5 := diffSectionStatus_length_le c.social p.social "Social Footprint"
  have h6 := diffSectionStatus_length_le c.ads p.ads "Paid Media"
  omega

lemma stabilityLoop_high (shifts : List SignalShift) (init : Rat)
    (h : ∀ s ∈ shifts, s.significance = "high") :
    stabilityLoop shifts init = floatSubN shifts.length init := by
  induction shifts generalizing init with
  | nil => rfl
  | cons a l ih =>
    have ha : a.significance = "high" := h a (List.mem_cons_self a l)
    have hb : (a.significance == "high") = true := by rw [ha]; rfl
    calc stabilityLoop (a :: l) init
        = stabilityLoop l (fsub init double02) := by
          simp [stabilityLoop, hb, ha]
      _ = floatSubN l.length (fsub init double02) :=
          ih _ (fun s hs => h s (List.mem_cons_of_mem a hs))
      _ = floatSubN (a :: l).length init := rfl

set_option maxRecDepth 400000 in
/-- C3 counterexample: over the program's IEEE binary64 arithmetic, a delta
with exactly 5 high-significance shifts (an all-present baseline against a
current profile whose SEO stayed present while five other sections went
absent) has stability score `2^-54 = 5.551115123125783e-17`, not 0.0,
refuting "equals 0.0 ... when 5 or more high-significance shifts are
emitted" and the exact-arithmetic formula `max(0, 1 - 0.2·5)` = 0. -/
theorem stability_clamp_counterexample :
    (computeDelta (infer {})
        (infer { web := { meta := some { title := some "T" } },
                 tech_stack := { confidence := some "high" },
                 reviews := { summary := some "S" },
                 social := { twitter := some "t" },
                 hiring := { open_roles := ["r"] },
                 ads := { platforms := ["fb"] } })
        86400 0).shifts.countP (fun s => s.significance == "high") = 5 ∧
    (computeDelta (infer {})
        (infer { web := { meta := some { title := some "T" } },
                 tech_stack := { confidence := some "high" },
                 reviews := { summary := some "S" },
                 social := { twitter := some "t" },
                 hiring := { open_roles := ["r"] },
                 ads := { platforms := ["fb"] } })
        86400 0).overall_stability_score = mkRat 1 18014398509481984 ∧
    (computeDelta (infer {})
        (infer { web := { meta := some { title := some "T" } },
                 tech_stack := { confidence := some "high" },
                 reviews := { summary := some "S" },
                 social := { twitter := some "t" },
                 hiring := { open_roles := ["r"] },
                 ads := { platforms := ["fb"] } })
        86400 0).overall_stability_score ≠ 0 := by
  refine ⟨by decide, by decide, by decide⟩

set_option maxRecDepth 400000 in
/-- C3 (amended): every emitted shift has significance "high", and the
stability score equals `max(0.0, s_h)` where `s_h` is the IEEE binary64
evaluation of `1.0` minus `h` times the double `0.2` (`h` the number of
emitted high shifts); the score always lies in `[0.0, 1.0]` and is never
negative; at exactly 5 high shifts it equals `2^-54`
(= 5.551115123125783e-17 = 1/18014398509481984), not 0.0, and at 6 or more
high shifts it equals 0.0. -/
theorem stability_score_float_rule (current previous : InferredProfile) (cd pd : Rat) :
    (∀ s ∈ (computeDelta current previous cd pd).shifts, s.significance = "high") ∧
    (computeDelta current previous cd pd).overall_stability_score =
      max 0 (floatSubN ((computeDelta current previous cd pd).shifts.countP
        (fun s => s.significance == "high")) 1) ∧
    0 ≤ (computeDelta current previous cd pd).overall_stability_score ∧
    (computeDelta current previous cd pd).overall_stability_score ≤ 1 ∧
    ((computeDelta current previous cd pd).shifts.countP
        (fun s => s.significance == "high") = 5 →
      (computeDelta current previous cd pd).overall_stability_score =
        1 / 18014398509481984) ∧
    (6 ≤ (computeDelta current previous cd pd).shifts.countP
        (fun s => s.significance == "high") →
      (computeDelta current previous cd pd).overall_stability_score = 0) := by
  have hhigh := computeDelta_shifts_high current previous cd pd
  have hcnt : (computeDelta current previous cd pd).shifts.countP
      (fun s => s.significance == "high") =
      (computeDelta current previous cd pd).shifts.length :=
    List.countP_eq_length.mpr (fun s hs => by rw [hhigh s hs]; rfl)
  have hscore : (computeDelta current previous cd pd).overall_stability_score =
      max 0 (floatSubN ((computeDelta current previous cd pd).shifts.length) 1) := by
    have h0 : (computeDelta current previous cd pd).overall_stability_score =
        max 0 (stabilityLoop (computeDelta current previous cd pd).shifts 1) := rfl
    rw [h0, stabilityLoop_high _ _ hhigh]
  have hlen := computeDelta_shifts_length_le current previous cd pd
  refine ⟨hhigh, ?_, ?_, ?_, ?_, ?_⟩
  · rw [hscore, hcnt]
  · rw [hscore]; exact le_max_left _ _
  · rw [hscore]
    revert hlen
    generalize (computeDelta current previous cd pd).shifts.length = n
    intro hlen
    interval_cases n <;> decide
  · intro h5
    rw [hcnt] at h5
    rw [hscore, h5]
    rw [show floatSubN 5 1 = mkRat 1 18014398509481984 from by decide]
    rw [max_eq_right (by decide)]
    rw [Rat.mkRat_eq_div]
    norm_num
  · intro h6
    have h6' : (computeDelta current previous cd pd).shifts.length = 6 :=
      le_antisymm hlen (by rw [← hcnt]; exact h6)
    rw [hscore, h6']
    decide

set_option maxRecDepth 400000 in
/-- Witness for `stability_score_float_rule`: the all-present baseline
against the empty-input profile yields exactly 5 high shifts and score
`2^-54`; breaking the SEO section as well yields 6 high shifts and score
exactly 0. -/
theorem stability_score_float_rule_witness :
    (computeDelta (infer {})
        (infer { web := { meta := some { title := some "T" } },
                 tech_stack := { confidence := some "high" },
                 reviews := { summary := some "S" },
                 social := { twitter := some "t" },
                 hiring := { open_roles := ["r"] },
                 ads := { platforms := ["fb"] } })
        86400 0).overall_stability_score = 1 / 18014398509481984 ∧
    (computeDelta (infer { web := { error := some "X" }, seo := { meta_issues := ["i"] } })
        (infer { web := { meta := some { title := some "T" } },
                 tech_stack := { confidence := some "high" },
                 reviews := { summary := some "S" },
                 social := { twitter := some "t" },
                 hiring := { open_roles := ["r"] },
                 ads := { platforms := ["fb"] } })
        86400 0).overall_stability_score = 0 :=
  ⟨(stability_score_float_rule (infer {})
      (infer { web := { meta := some { title := some "T" } },
               tech_stack := { confidence := some "high" },
               reviews := { summary := some "S" },
               social := { twitter := some "t" },
               hiring := { open_roles := ["r"] },
               ads := { platforms := ["fb"] } })
      86400 0).2.2.2.2.1 (by decide),
   (stability_score_float_rule
      (infer { web := { error := some "X" }, seo := { meta_issues := ["i"] } })
      (infer { web := { meta := some { title := some "T" } },
               tech_stack := { confidence := some "high" },
               reviews := { summary := some "S" },
               social := { twitter := some "t" },
               hiring := { open_roles := ["r"] },
               ads := { platforms := ["fb"] } })
      86400 0).2.2.2.2.2 (by decide)⟩

end SignalAnalyst
